import Mathlib

/-!
Shallow embedding of `jetty-setuid-native/src/main/resources/org_eclipse_jetty_setuid_SetUID.c`,
the JNI binding layer of the jetty-setuid module, together with proofs about the
behaviour of its entry points.

Modelling conventions, fixed once here and used consistently below:

* The JNI environment is modelled by `JniConfig`, a record of oracles saying which
  classes resolve (`FindClass`), which method ids resolve (`GetMethodID`), which
  field ids resolve (`GetFieldID`) and whether `NewObject` yields an object.
* A Java object is an association list of named fields (`JObject`); Java's
  zero-initialisation of fields is modelled by a field being absent from the list
  (reading an absent int field yields `0`, an absent reference field yields `none`).
* A raised `java.lang.SecurityException` is modelled by appending its message to a
  thrown-exception log of type `List String`; an empty log means no exception was
  raised during the call.
* JNI calls made with a null field id (which the C source performs after raising an
  exception, instead of returning) are modelled as no-ops for writes and as reading
  the zero value for reads: this mirrors the fact that a null handle cannot reach
  the actual field.
* C integer conversions are explicit: `uint32OfInt` is the conversion of a 32-bit
  signed `jint` to the unsigned `uid_t`/`gid_t`/`mode_t`, `uint64OfInt` is the
  conversion of a C `int` to the 64-bit unsigned `rlim_t` (sign extension then
  reinterpretation), and `toInt32` is the conversion of an unsigned value to a
  signed 32-bit C `int` (truncation modulo `2^32`, then signed reinterpretation).
* The operating system is an explicit value: `OS` holds the user and group
  databases, `RlimState` holds the process's open-file resource limits, and
  `kernelSetrlimit` models the POSIX `setrlimit` kernel behaviour (failure when the
  requested soft limit exceeds the requested hard limit, or when the hard limit is
  raised without privilege; the process state is unchanged on failure).
-/

namespace SetUIDNative

/-! ### C integer conversions -/

/-- Conversion of an unsigned machine value (`uid_t`, `gid_t` or `rlim_t`) to a
32-bit signed C `int`: truncation modulo `2 ^ 32` followed by signed
reinterpretation.  This is what the assignments `setJavaFieldInt(..., pw->pw_uid)`
and `setJavaFieldInt(..., rlim.rlim_cur)` perform in the C source. -/
def toInt32 (n : Nat) : Int :=
  if n % 2 ^ 32 < 2 ^ 31 then ((n % 2 ^ 32 : Nat) : Int)
  else ((n % 2 ^ 32 : Nat) : Int) - 2 ^ 32

/-- Conversion of a 32-bit signed `jint` to an unsigned 32-bit value, as in the
casts `(uid_t) uid`, `(gid_t) gid` and `(mode_t) mask` of the C source. -/
def uint32OfInt (i : Int) : Nat :=
  (i % (2 ^ 32 : Int)).toNat

/-- Conversion of a signed C `int` to the 64-bit unsigned `rlim_t`, as in the
assignments `rlim.rlim_cur = getJavaFieldInt(env, jo, "_soft")` of the C source:
sign extension followed by unsigned reinterpretation, i.e. reduction modulo
`2 ^ 64`. -/
def uint64OfInt (i : Int) : Nat :=
  (i % (2 ^ 64 : Int)).toNat

/-! ### Operating-system model: identity databases and resource limits -/

/-- A `struct passwd` entry of the operating system's user database
(`pwd.h`).  Numeric ids are the unsigned machine values. -/
structure PasswdEntry where
  pw_name : String
  pw_passwd : String
  pw_uid : Nat
  pw_gid : Nat
  pw_gecos : String
  pw_dir : String
  pw_shell : String
deriving DecidableEq, Repr

/-- A `struct group` entry of the operating system's group database (`grp.h`).
`gr_mem` models the `char **gr_mem` member array: `none` models a `NULL`
pointer, `some l` models a non-null array whose entries up to the terminating
`NULL` are exactly `l` (so the C scan
`for(array_size = 0; gr->gr_mem[array_size] != NULL; array_size++);`
computes `l.length`). -/
structure GroupEntry where
  gr_name : String
  gr_passwd : String
  gr_gid : Nat
  gr_mem : Option (List String)
deriving DecidableEq, Repr

/-- The operating system's identity databases. -/
structure OS where
  users : List PasswdEntry
  groups : List GroupEntry
deriving DecidableEq, Repr

/-- The libc lookup `getpwnam(3)`: first user entry with the given name,
`none` models a `NULL` result. -/
def OS.getpwnam (os : OS) (n : String) : Option PasswdEntry :=
  os.users.find? (fun e => e.pw_name = n)

/-- The libc lookup `getpwuid(3)`: first user entry with the given (unsigned)
numeric user id. -/
def OS.getpwuid (os : OS) (uid : Nat) : Option PasswdEntry :=
  os.users.find? (fun e => e.pw_uid = uid)

/-- The libc lookup `getgrnam(3)`: first group entry with the given name. -/
def OS.getgrnam (os : OS) (n : String) : Option GroupEntry :=
  os.groups.find? (fun e => e.gr_name = n)

/-- The libc lookup `getgrgid(3)`: first group entry with the given (unsigned)
numeric group id. -/
def OS.getgrgid (os : OS) (gid : Nat) : Option GroupEntry :=
  os.groups.find? (fun e => e.gr_gid = gid)

/-- The process's open-file resource limits (`struct rlimit` for
`RLIMIT_NOFILE`): current (soft) and maximum (hard) limit, as unsigned 64-bit
`rlim_t` values. -/
structure RlimState where
  rlim_cur : Nat
  rlim_max : Nat
deriving DecidableEq, Repr

/-- POSIX kernel model of `setrlimit(RLIMIT_NOFILE, ...)`: the call fails
(returns `-1`, leaving the process limits unchanged) when the requested soft
limit exceeds the requested hard limit (`EINVAL`), or when it would raise the
hard limit and the process lacks the required privilege (`EPERM`); otherwise it
installs both values and returns `0`. -/
def kernelSetrlimit (priv : Bool) (old : RlimState) (newCur newMax : Nat) :
    Int × RlimState :=
  if newMax < newCur then (-1, old)
  else if priv = false ∧ old.rlim_max < newMax then (-1, old)
  else (0, ⟨newCur, newMax⟩)

/-! ### JNI model: environment oracles, objects, exception log -/

/-- Oracles describing the host JVM as seen through the JNI calls the C source
makes: which class names `FindClass` resolves, which (class, method, signature)
triples `GetMethodID` resolves, which (class, field, signature) triples
`GetFieldID` resolves, and for which classes `NewObject` returns a non-null
object. -/
structure JniConfig where
  findClass : String → Bool
  getMethodId : String → String → String → Bool
  getFieldId : String → String → String → Bool
  newObject : String → Bool

/-- A value stored in a field of a modelled Java object. -/
inductive JValue where
  | vInt (i : Int)
  | vString (s : String)
  | vStringArray (a : List String)
deriving DecidableEq, Repr

/-- First value bound to the given field name, if any. -/
def lookupField : List (String × JValue) → String → Option JValue
  | [], _ => none
  | (k, v) :: rest, n => if k = n then some v else lookupField rest n

/-- A modelled Java object: its runtime class name and its bound fields.  A
field absent from the list holds its zero-initialised default (0 for `int`,
null for references). -/
structure JObject where
  className : String
  fields : List (String × JValue)
deriving DecidableEq, Repr

/-- JNI `Set*Field`: bind a field of the object (the newest binding wins). -/
def JObject.setField (o : JObject) (n : String) (v : JValue) : JObject :=
  { o with fields := (n, v) :: o.fields }

/-- Value currently bound to the field, if any. -/
def JObject.getField (o : JObject) (n : String) : Option JValue :=
  lookupField o.fields n

/-- JNI `GetIntField` on the object: the bound value, or the
zero-initialised default `0`. -/
def JObject.getIntField (o : JObject) (n : String) : Int :=
  match o.getField n with
  | some (JValue.vInt i) => i
  | _ => 0

/-- The log of exception messages raised during one native call, in order.
`[]` means no exception was raised. -/
abbrev Thrown := List String

/-- Embedding of `throwNewJavaException` specialised by
`throwNewJavaSecurityException`: `FindClass("java/lang/SecurityException")`
followed, when the class resolves, by `ThrowNew` with the message.  When the
exception class itself does not resolve, nothing is thrown (the C source guards
`ThrowNew` with `if (clazz)`). -/
def throwSec (cfg : JniConfig) (t : Thrown) (msg : String) : Thrown :=
  if cfg.findClass "java/lang/SecurityException" then t ++ [msg] else t

/-- Embedding of the helper `getJavaMethodId`: resolve a method id, raising a
security exception naming the method when `GetMethodID` fails.  The returned
`Bool` stands for the (possibly null) `jmethodID` handed back to the caller —
the C helper returns `NULL` after throwing, and its callers continue. -/
def getJavaMethodId (cfg : JniConfig) (t : Thrown) (cls name sig : String) :
    Bool × Thrown :=
  if cfg.getMethodId cls name sig then (true, t)
  else (false, throwSec cfg t ("Java Method is not found: " ++ name ++ " !!!"))

/-- Embedding of the helper `setJavaFieldInt`: resolve the `int` field by name
on the object's class and store the value.  When `GetFieldID` fails the helper
raises a security exception naming the field and then still executes
`SetIntField` with the null field id (modelled as a no-op) and returns
normally — it does not abort its caller. -/
def setJavaFieldInt (cfg : JniConfig) (st : JObject × Thrown) (name : String)
    (value : Int) : JObject × Thrown :=
  if cfg.getFieldId st.1.className name "I" then
    (st.1.setField name (JValue.vInt value), st.2)
  else
    (st.1, throwSec cfg st.2 ("Java Object Field is not found: int " ++ name ++ " !!!"))

/-- Embedding of the helper `setJavaFieldString`: resolve the `String` field by
name and store a fresh managed string built from the native bytes
(`NewStringUTF`, modelled as the string itself).  As with `setJavaFieldInt`,
failure raises a security exception naming the field but the helper still
returns normally after a null-id `SetObjectField` (modelled as a no-op). -/
def setJavaFieldString (cfg : JniConfig) (st : JObject × Thrown) (name : String)
    (value : String) : JObject × Thrown :=
  if cfg.getFieldId st.1.className name "Ljava/lang/String;" then
    (st.1.setField name (JValue.vString value), st.2)
  else
    (st.1, throwSec cfg st.2 ("Java Object Field is not found: String " ++ name ++ " !!!"))

/-- Embedding of the helper `getJavaFieldInt`: resolve the `int` field by name
on the object's class and read it.  When `GetFieldID` fails the helper raises a
security exception naming the field and then still executes `GetIntField` with
the null field id (modelled as reading the zero value `0`) and returns that
value — it does not abort its caller. -/
def getJavaFieldInt (cfg : JniConfig) (t : Thrown) (o : JObject) (name : String) :
    Int × Thrown :=
  if cfg.getFieldId o.className name "I" then (o.getIntField name, t)
  else (0, throwSec cfg t ("Java Object Field is not found: int " ++ name ++ " !!!"))

/-! ### Entry points: privilege-change operations -/

/-- Embedding of `Java_org_mortbay_setuid_SetUID_setuid`:
`return((jint)setuid((uid_t)uid));`.  The `setuid(2)` system call is an oracle
`sys` mapping the unsigned id to its raw integer result. -/
def setuidImpl (sys : Nat → Int) (uid : Int) : Int × Thrown :=
  (sys (uint32OfInt uid), [])

/-- Embedding of `Java_org_mortbay_setuid_SetUID_setgid`:
`return((jint)setgid((gid_t)gid));`. -/
def setgidImpl (sys : Nat → Int) (gid : Int) : Int × Thrown :=
  (sys (uint32OfInt gid), [])

/-- Embedding of `Java_org_mortbay_setuid_SetUID_setumask`:
`return((jint)umask((mode_t)mask));`. -/
def setumaskImpl (sys : Nat → Int) (mask : Int) : Int × Thrown :=
  (sys (uint32OfInt mask), [])

/-! ### Entry points: user lookups -/

/-- Embedding of `Java_org_mortbay_setuid_SetUID_getpwnam`.  Looks up the user
by name; when libc returns `NULL` it raises a security exception whose message
embeds the queried name and returns `NULL`.  Otherwise it resolves the class
`org.mortbay.setuid.Passwd`, its no-argument constructor and a fresh object,
then populates the seven fields in source order via `setJavaFieldString` /
`setJavaFieldInt` and returns the object. -/
def getpwnamImpl (cfg : JniConfig) (os : OS) (name : String) :
    Option JObject × Thrown :=
  match os.getpwnam name with
  | none => (none, throwSec cfg [] ("User " ++ name ++ " is not found!!!"))
  | some pw =>
    if cfg.findClass "org/mortbay/setuid/Passwd" then
      let c := getJavaMethodId cfg [] "org/mortbay/setuid/Passwd" "<init>" "()V"
      if cfg.newObject "org/mortbay/setuid/Passwd" then
        let s0 : JObject × Thrown := (⟨"org/mortbay/setuid/Passwd", []⟩, c.2)
        let s1 := setJavaFieldString cfg s0 "_pwName" pw.pw_name
        let s2 := setJavaFieldString cfg s1 "_pwPasswd" pw.pw_passwd
        let s3 := setJavaFieldInt cfg s2 "_pwUid" (toInt32 pw.pw_uid)
        let s4 := setJavaFieldInt cfg s3 "_pwGid" (toInt32 pw.pw_gid)
        let s5 := setJavaFieldString cfg s4 "_pwGecos" pw.pw_gecos
        let s6 := setJavaFieldString cfg s5 "_pwDir" pw.pw_dir
        let s7 := setJavaFieldString cfg s6 "_pwShell" pw.pw_shell
        (some s7.1, s7.2)
      else
        (none, throwSec cfg c.2 "Object Construction error of Class: org.mortbay.setuid.Passwd!!!")
    else
      (none, throwSec cfg [] "Class: org.mortbay.setuid.Passwd is not found!!!")

/-- Embedding of `Java_org_mortbay_setuid_SetUID_getpwuid`.  Identical to
`getpwnamImpl` except that the lookup key is the numeric id cast to `uid_t`
and the not-found message embeds the decimal rendering of the `jint` id. -/
def getpwuidImpl (cfg : JniConfig) (os : OS) (uid : Int) :
    Option JObject × Thrown :=
  match os.getpwuid (uint32OfInt uid) with
  | none => (none, throwSec cfg [] ("User with uid " ++ toString uid ++ " is not found!!!"))
  | some pw =>
    if cfg.findClass "org/mortbay/setuid/Passwd" then
      let c := getJavaMethodId cfg [] "org/mortbay/setuid/Passwd" "<init>" "()V"
      if cfg.newObject "org/mortbay/setuid/Passwd" then
        let s0 : JObject × Thrown := (⟨"org/mortbay/setuid/Passwd", []⟩, c.2)
        let s1 := setJavaFieldString cfg s0 "_pwName" pw.pw_name
        let s2 := setJavaFieldString cfg s1 "_pwPasswd" pw.pw_passwd
        let s3 := setJavaFieldInt cfg s2 "_pwUid" (toInt32 pw.pw_uid)
        let s4 := setJavaFieldInt cfg s3 "_pwGid" (toInt32 pw.pw_gid)
        let s5 := setJavaFieldString cfg s4 "_pwGecos" pw.pw_gecos
        let s6 := setJavaFieldString cfg s5 "_pwDir" pw.pw_dir
        let s7 := setJavaFieldString cfg s6 "_pwShell" pw.pw_shell
        (some s7.1, s7.2)
      else
        (none, throwSec cfg c.2 "Object Construction error of Class: org.mortbay.setuid.Passwd!!!")
    else
      (none, throwSec cfg [] "Class: org.mortbay.setuid.Passwd is not found!!!")

/-! ### Entry points: group lookups -/

/-- The member array built by the copy loop of the group lookups:
`NewObjectArray(array_size, String, "")` creates an array of `array_size`
empty strings, then the loop stores `NewStringUTF(gr->gr_mem[i])` into slot
`i` for every `i < array_size`.  With `array_size = mems.length`, slot `i`
receives element `i` of `mems`. -/
def builtMemberArray (mems : List String) : List String :=
  (List.range mems.length).map (fun i => mems.getD i "")

/-- Embedding of `Java_org_mortbay_setuid_SetUID_getgrnam`.  Looks up the group
by name; not-found raises a security exception embedding the name and returns
`NULL`.  Otherwise it resolves `org.mortbay.setuid.Group`, its constructor and a
fresh object, populates `_grName`, `_grPasswd` and `_grGid`, and then, when the
native member array is non-null and its scanned length is non-zero, builds the
string array and binds it to `_grMem` (raising, but not aborting, when that
field id is missing).  A null or empty member array leaves `_grMem` unbound. -/
def getgrnamImpl (cfg : JniConfig) (os : OS) (name : String) :
    Option JObject × Thrown :=
  match os.getgrnam name with
  | none => (none, throwSec cfg [] ("Group " ++ name ++ " is not found!!!"))
  | some gr =>
    if cfg.findClass "org/mortbay/setuid/Group" then
      let c := getJavaMethodId cfg [] "org/mortbay/setuid/Group" "<init>" "()V"
      if cfg.newObject "org/mortbay/setuid/Group" then
        let s0 : JObject × Thrown := (⟨"org/mortbay/setuid/Group", []⟩, c.2)
        let s1 := setJavaFieldString cfg s0 "_grName" gr.gr_name
        let s2 := setJavaFieldString cfg s1 "_grPasswd" gr.gr_passwd
        let s3 := setJavaFieldInt cfg s2 "_grGid" (toInt32 gr.gr_gid)
        match gr.gr_mem with
        | none => (some s3.1, s3.2)
        | some mems =>
          let array_size := mems.length
          if array_size ≠ 0 then
            if cfg.getFieldId "org/mortbay/setuid/Group" "_grMem" "[Ljava/lang/String;" then
              (some (s3.1.setField "_grMem" (JValue.vStringArray (builtMemberArray mems))), s3.2)
            else
              (some s3.1,
                throwSec cfg s3.2 "Class: Java Object Field is not found: String[] _grMem!!!")
          else (some s3.1, s3.2)
      else
        (none, throwSec cfg c.2 "Object Construction error of Class: org.mortbay.setuid.Group!!!")
    else
      (none, throwSec cfg [] "Class: org.mortbay.setuid.Group is not found!!!")

/-- Embedding of `Java_org_mortbay_setuid_SetUID_getgrgid`.  Same construction
as `getgrnamImpl` over the entry found by numeric group id; the not-found
message embeds the decimal id, and the two messages that differ textually from
`getgrnam` in the C source (`Object Construction Error ...` and the `_grMem`
one) are kept verbatim. -/
def getgrgidImpl (cfg : JniConfig) (os : OS) (gid : Int) :
    Option JObject × Thrown :=
  match os.getgrgid (uint32OfInt gid) with
  | none => (none, throwSec cfg [] ("Group with gid " ++ toString gid ++ " is not found!!!"))
  | some gr =>
    if cfg.findClass "org/mortbay/setuid/Group" then
      let c := getJavaMethodId cfg [] "org/mortbay/setuid/Group" "<init>" "()V"
      if cfg.newObject "org/mortbay/setuid/Group" then
        let s0 : JObject × Thrown := (⟨"org/mortbay/setuid/Group", []⟩, c.2)
        let s1 := setJavaFieldString cfg s0 "_grName" gr.gr_name
        let s2 := setJavaFieldString cfg s1 "_grPasswd" gr.gr_passwd
        let s3 := setJavaFieldInt cfg s2 "_grGid" (toInt32 gr.gr_gid)
        match gr.gr_mem with
        | none => (some s3.1, s3.2)
        | some mems =>
          let array_size := mems.length
          if array_size ≠ 0 then
            if cfg.getFieldId "org/mortbay/setuid/Group" "_grMem" "[Ljava/lang/String;" then
              (some (s3.1.setField "_grMem" (JValue.vStringArray (builtMemberArray mems))), s3.2)
            else
              (some s3.1,
                throwSec cfg s3.2 "Java Object Field is not found: String _grMem!!!")
          else (some s3.1, s3.2)
      else
        (none, throwSec cfg c.2 "Object Construction Error of Class: org.mortbay.setuid.Group!!!")
    else
      (none, throwSec cfg [] "Class: org.mortbay.setuid.Group is not found!!!")

/-! ### Entry points: resource-limit operations -/

/-- Embedding of `Java_org_mortbay_setuid_SetUID_getrlimitnofiles`.  The
`getrlimit(RLIMIT_NOFILE, &rlim)` system call is an oracle: `none` models a
negative return (failure), `some rlim` models success with the two queried
values.  On failure it raises a security exception with the fixed message
`getrlimit failed` and returns `NULL`; on success it constructs an
`org.mortbay.setuid.RLimit` object and stores `rlim.rlim_cur` and
`rlim.rlim_max` into the `int` fields `_soft` and `_hard` (a C `int`
truncation, `toInt32`). -/
def getrlimitnofilesImpl (cfg : JniConfig) (osLimit : Option RlimState) :
    Option JObject × Thrown :=
  match osLimit with
  | none => (none, throwSec cfg [] "getrlimit failed")
  | some rlim =>
    if cfg.findClass "org/mortbay/setuid/RLimit" then
      let c := getJavaMethodId cfg [] "org/mortbay/setuid/RLimit" "<init>" "()V"
      if cfg.newObject "org/mortbay/setuid/RLimit" then
        let s0 : JObject × Thrown := (⟨"org/mortbay/setuid/RLimit", []⟩, c.2)
        let s1 := setJavaFieldInt cfg s0 "_soft" (toInt32 rlim.rlim_cur)
        let s2 := setJavaFieldInt cfg s1 "_hard" (toInt32 rlim.rlim_max)
        (some s2.1, s2.2)
      else
        (none, throwSec cfg c.2 "Object Construction Error of Class: org.mortbay.setuid.RLimit!!!")
    else
      (none, throwSec cfg [] "Class: org.mortbay.setuid.RLimit is not found!!!")

/-- Embedding of `Java_org_mortbay_setuid_SetUID_setrlimitnofiles`.  Reads the
`int` fields `_soft` and `_hard` of the caller-supplied record via
`getJavaFieldInt`, widens each to `rlim_t` (`uint64OfInt`), performs the single
`setrlimit(RLIMIT_NOFILE, &rlim)` call on the process state and returns its raw
integer result together with the new process state and the exception log.  The
`FindClass("org/mortbay/setuid/RLimit")` result of the C source is used only
for `DeleteLocalRef` and has no observable effect. -/
def setrlimitnofilesImpl (cfg : JniConfig) (priv : Bool) (os : RlimState)
    (jo : JObject) : Int × RlimState × Thrown :=
  let r1 := getJavaFieldInt cfg [] jo "_soft"
  let r2 := getJavaFieldInt cfg r1.2 jo "_hard"
  let k := kernelSetrlimit priv os (uint64OfInt r1.1) (uint64OfInt r2.1)
  (k.1, k.2, r2.2)

/-! ### Resolution predicates on the JNI environment -/

/-- The security-exception class itself resolves, so raised errors are
actually delivered. -/
def secCfgOk (cfg : JniConfig) : Prop :=
  cfg.findClass "java/lang/SecurityException" = true

/-- Every JNI handle touched by the user lookups resolves: the `Passwd` class,
its no-argument constructor, object construction, and the seven fields, with
the security-exception class available as well. -/
def passwdCfgOk (cfg : JniConfig) : Prop :=
  secCfgOk cfg ∧
  cfg.findClass "org/mortbay/setuid/Passwd" = true ∧
  cfg.getMethodId "org/mortbay/setuid/Passwd" "<init>" "()V" = true ∧
  cfg.newObject "org/mortbay/setuid/Passwd" = true ∧
  cfg.getFieldId "org/mortbay/setuid/Passwd" "_pwName" "Ljava/lang/String;" = true ∧
  cfg.getFieldId "org/mortbay/setuid/Passwd" "_pwPasswd" "Ljava/lang/String;" = true ∧
  cfg.getFieldId "org/mortbay/setuid/Passwd" "_pwUid" "I" = true ∧
  cfg.getFieldId "org/mortbay/setuid/Passwd" "_pwGid" "I" = true ∧
  cfg.getFieldId "org/mortbay/setuid/Passwd" "_pwGecos" "Ljava/lang/String;" = true ∧
  cfg.getFieldId "org/mortbay/setuid/Passwd" "_pwDir" "Ljava/lang/String;" = true ∧
  cfg.getFieldId "org/mortbay/setuid/Passwd" "_pwShell" "Ljava/lang/String;" = true

/-- Every JNI handle touched by the group lookups resolves. -/
def groupCfgOk (cfg : JniConfig) : Prop :=
  secCfgOk cfg ∧
  cfg.findClass "org/mortbay/setuid/Group" = true ∧
  cfg.getMethodId "org/mortbay/setuid/Group" "<init>" "()V" = true ∧
  cfg.newObject "org/mortbay/setuid/Group" = true ∧
  cfg.getFieldId "org/mortbay/setuid/Group" "_grName" "Ljava/lang/String;" = true ∧
  cfg.getFieldId "org/mortbay/setuid/Group" "_grPasswd" "Ljava/lang/String;" = true ∧
  cfg.getFieldId "org/mortbay/setuid/Group" "_grGid" "I" = true ∧
  cfg.getFieldId "org/mortbay/setuid/Group" "_grMem" "[Ljava/lang/String;" = true

/-- Every JNI handle touched by the resource-limit operations resolves. -/
def rlimitCfgOk (cfg : JniConfig) : Prop :=
  secCfgOk cfg ∧
  cfg.findClass "org/mortbay/setuid/RLimit" = true ∧
  cfg.getMethodId "org/mortbay/setuid/RLimit" "<init>" "()V" = true ∧
  cfg.newObject "org/mortbay/setuid/RLimit" = true ∧
  cfg.getFieldId "org/mortbay/setuid/RLimit" "_soft" "I" = true ∧
  cfg.getFieldId "org/mortbay/setuid/RLimit" "_hard" "I" = true

/-! ### Concrete environments and data used to instantiate the theorems -/

/-- A JNI environment in which every handle resolves. -/
def cfgAll : JniConfig :=
  ⟨fun _ => true, fun _ _ _ => true, fun _ _ _ => true, fun _ => true⟩

/-- A JNI environment in which every handle resolves except the `String` field
`_pwShell` of the `Passwd` class. -/
def cfgNoShell : JniConfig :=
  { cfgAll with getFieldId := fun _ f _ => if f = "_pwShell" then false else true }

/-- A JNI environment in which every handle resolves except the `int` field
`_soft` of the `RLimit` class. -/
def cfgNoSoft : JniConfig :=
  { cfgAll with getFieldId := fun _ f _ => if f = "_soft" then false else true }

/-- A sample user database entry. -/
def pwJetty : PasswdEntry :=
  ⟨"jetty", "x", 1000, 1000, "Jetty Server", "/home/jetty", "/bin/sh"⟩

/-- A sample group with two members. -/
def grStaff : GroupEntry := ⟨"staff", "x", 50, some ["alice", "bob"]⟩

/-- A sample group whose member array is non-null but empty. -/
def grEmptyMem : GroupEntry := ⟨"nogroup", "x", 99, some []⟩

/-- A sample group whose member array pointer is null. -/
def grNullMem : GroupEntry := ⟨"nullmem", "x", 98, none⟩

/-- A sample operating-system identity database. -/
def osW : OS := ⟨[pwJetty], [grStaff, grEmptyMem, grNullMem]⟩

/-- A sample caller-supplied `RLimit` record whose soft limit exceeds its hard
limit. -/
def joRlBad : JObject :=
  ⟨"org/mortbay/setuid/RLimit", [("_soft", JValue.vInt 100), ("_hard", JValue.vInt 50)]⟩

/-- The default object used to project a field out of an optional result. -/
def noObj : JObject := ⟨"", []⟩

/-- Soft-limit field of the object returned by a read, `0` when no object was
returned. -/
def softOf (r : Option JObject × Thrown) : Int :=
  (r.1.getD noObj).getIntField "_soft"

/-- Hard-limit field of the object returned by a read. -/
def hardOf (r : Option JObject × Thrown) : Int :=
  (r.1.getD noObj).getIntField "_hard"

/-- The `Passwd` object produced by a successful user lookup: the seven field
bindings of the population sequence (newest first, since each `Set*Field`
prepends). -/
def pwObj (pw : PasswdEntry) : JObject :=
  ⟨"org/mortbay/setuid/Passwd",
   [("_pwShell", JValue.vString pw.pw_shell),
    ("_pwDir", JValue.vString pw.pw_dir),
    ("_pwGecos", JValue.vString pw.pw_gecos),
    ("_pwGid", JValue.vInt (toInt32 pw.pw_gid)),
    ("_pwUid", JValue.vInt (toInt32 pw.pw_uid)),
    ("_pwPasswd", JValue.vString pw.pw_passwd),
    ("_pwName", JValue.vString pw.pw_name)]⟩

/-- The `Group` object after the three scalar fields have been populated. -/
def grpBaseObj (gr : GroupEntry) : JObject :=
  ⟨"org/mortbay/setuid/Group",
   [("_grGid", JValue.vInt (toInt32 gr.gr_gid)),
    ("_grPasswd", JValue.vString gr.gr_passwd),
    ("_grName", JValue.vString gr.gr_name)]⟩

/-- The `Group` object produced by a successful group lookup: the member-list
field is bound only when the native member array is non-null and non-empty. -/
def grpObj (gr : GroupEntry) : JObject :=
  match gr.gr_mem with
  | none => grpBaseObj gr
  | some [] => grpBaseObj gr
  | some mems =>
    (grpBaseObj gr).setField "_grMem" (JValue.vStringArray (builtMemberArray mems))

/-- The `RLimit` object produced by a successful resource-limit read. -/
def rlObj (rl : RlimState) : JObject :=
  ⟨"org/mortbay/setuid/RLimit",
   [("_hard", JValue.vInt (toInt32 rl.rlim_max)),
    ("_soft", JValue.vInt (toInt32 rl.rlim_cur))]⟩

/-! ### Arithmetic lemmas about the C integer conversions -/

/-- The copy loop reproduces the member list exactly. -/
theorem builtMemberArray_eq (l : List String) : builtMemberArray l = l := by
  unfold builtMemberArray
  induction l with
  | nil => simp
  | cons a t ih =>
    simp only [List.length_cons, List.range_succ_eq_map, List.map_cons, List.map_map,
      List.getD_cons_zero, Function.comp_def, List.getD_cons_succ]
    exact congrArg (a :: ·) ih

/-- Values below `2 ^ 31` survive the `int` conversion unchanged. -/
theorem toInt32_eq_self (n : Nat) (h : n < 2 ^ 31) : toInt32 n = (n : Nat) := by
  unfold toInt32
  split <;> omega

/-- Values at or above `2 ^ 31` are altered by the `int` conversion. -/
theorem toInt32_ne_of_ge (n : Nat) (h : 2 ^ 31 ≤ n) : toInt32 n ≠ (n : Nat) := by
  unfold toInt32
  split <;> omega

/-- The `int` conversion is truncation modulo `2 ^ 32`, reinterpreted as a
signed value. -/
theorem toInt32_cases (n : Nat) :
    toInt32 n = ((n % 2 ^ 32 : Nat) : Int) ∨
    toInt32 n = ((n % 2 ^ 32 : Nat) : Int) - 2 ^ 32 := by
  unfold toInt32
  split
  · exact Or.inl rfl
  · exact Or.inr rfl

/-- Widening a truncated value back to `rlim_t` (sign extension) and
truncating again is the identity on the truncated value. -/
theorem toInt32_roundtrip (n : Nat) :
    toInt32 (uint64OfInt (toInt32 n)) = toInt32 n := by
  unfold toInt32 uint64OfInt
  split_ifs <;> omega

/-- Non-negative `jint` values below `2 ^ 32` cross the unsigned cast
unchanged. -/
theorem uint32OfInt_eq_toNat (i : Int) (h1 : 0 ≤ i) (h2 : i < 2 ^ 32) :
    uint32OfInt i = i.toNat := by
  unfold uint32OfInt
  omega

/-! ### Evaluation lemmas for the entry points -/

/-- User-by-name lookup on a missing name: exception embedding the name, no
record. -/
theorem getpwnamImpl_notfound (cfg : JniConfig) (os : OS) (name : String)
    (hs : secCfgOk cfg) (h : os.getpwnam name = none) :
    getpwnamImpl cfg os name = (none, ["User " ++ name ++ " is not found!!!"]) := by
  have hs2 : cfg.findClass "java/lang/SecurityException" = true := hs
  simp [getpwnamImpl, h, throwSec, hs2]

/-- User-by-id lookup on a missing id: exception embedding the decimal id, no
record. -/
theorem getpwuidImpl_notfound (cfg : JniConfig) (os : OS) (uid : Int)
    (hs : secCfgOk cfg) (h : os.getpwuid (uint32OfInt uid) = none) :
    getpwuidImpl cfg os uid =
      (none, ["User with uid " ++ toString uid ++ " is not found!!!"]) := by
  have hs2 : cfg.findClass "java/lang/SecurityException" = true := hs
  simp [getpwuidImpl, h, throwSec, hs2]

/-- Group-by-name lookup on a missing name: exception embedding the name, no
record. -/
theorem getgrnamImpl_notfound (cfg : JniConfig) (os : OS) (name : String)
    (hs : secCfgOk cfg) (h : os.getgrnam name = none) :
    getgrnamImpl cfg os name = (none, ["Group " ++ name ++ " is not found!!!"]) := by
  have hs2 : cfg.findClass "java/lang/SecurityException" = true := hs
  simp [getgrnamImpl, h, throwSec, hs2]

/-- Group-by-id lookup on a missing id: exception embedding the decimal id, no
record. -/
theorem getgrgidImpl_notfound (cfg : JniConfig) (os : OS) (gid : Int)
    (hs : secCfgOk cfg) (h : os.getgrgid (uint32OfInt gid) = none) :
    getgrgidImpl cfg os gid =
      (none, ["Group with gid " ++ toString gid ++ " is not found!!!"]) := by
  have hs2 : cfg.findClass "java/lang/SecurityException" = true := hs
  simp [getgrgidImpl, h, throwSec, hs2]

/-- Failing `getrlimit` call: fixed message, no record. -/
theorem getrlimitnofilesImpl_fail (cfg : JniConfig) (hs : secCfgOk cfg) :
    getrlimitnofilesImpl cfg none = (none, ["getrlimit failed"]) := by
  have hs2 : cfg.findClass "java/lang/SecurityException" = true := hs
  simp [getrlimitnofilesImpl, throwSec, hs2]

/-- Successful user-by-name lookup in a fully resolving environment: the
populated record, no exception. -/
theorem getpwnamImpl_found (cfg : JniConfig) (os : OS) (name : String)
    (pw : PasswdEntry) (hc : passwdCfgOk cfg) (h : os.getpwnam name = some pw) :
    getpwnamImpl cfg os name = (some (pwObj pw), []) := by
  obtain ⟨hs, h1, h2, h3, h4, h5, h6, h7, h8, h9, h10⟩ := hc
  simp [getpwnamImpl, h, getJavaMethodId, setJavaFieldString, setJavaFieldInt,
    JObject.setField, pwObj, h1, h2, h3, h4, h5, h6, h7, h8, h9, h10]

/-- Successful user-by-id lookup in a fully resolving environment. -/
theorem getpwuidImpl_found (cfg : JniConfig) (os : OS) (uid : Int)
    (pw : PasswdEntry) (hc : passwdCfgOk cfg)
    (h : os.getpwuid (uint32OfInt uid) = some pw) :
    getpwuidImpl cfg os uid = (some (pwObj pw), []) := by
  obtain ⟨hs, h1, h2, h3, h4, h5, h6, h7, h8, h9, h10⟩ := hc
  simp [getpwuidImpl, h, getJavaMethodId, setJavaFieldString, setJavaFieldInt,
    JObject.setField, pwObj, h1, h2, h3, h4, h5, h6, h7, h8, h9, h10]

/-- Successful group-by-name lookup in a fully resolving environment. -/
theorem getgrnamImpl_found (cfg : JniConfig) (os : OS) (name : String)
    (gr : GroupEntry) (hc : groupCfgOk cfg) (h : os.getgrnam name = some gr) :
    getgrnamImpl cfg os name = (some (grpObj gr), []) := by
  obtain ⟨hs, h1, h2, h3, h4, h5, h6, h7⟩ := hc
  rcases hm : gr.gr_mem with _ | mems
  · simp [getgrnamImpl, h, hm, getJavaMethodId, setJavaFieldString, setJavaFieldInt,
      JObject.setField, grpObj, grpBaseObj, h1, h2, h3, h4, h5, h6, h7]
  · rcases mems with _ | ⟨m, rest⟩ <;>
      simp [getgrnamImpl, h, hm, getJavaMethodId, setJavaFieldString, setJavaFieldInt,
        JObject.setField, grpObj, grpBaseObj, h1, h2, h3, h4, h5, h6, h7]

/-- Successful group-by-id lookup in a fully resolving environment. -/
theorem getgrgidImpl_found (cfg : JniConfig) (os : OS) (gid : Int)
    (gr : GroupEntry) (hc : groupCfgOk cfg)
    (h : os.getgrgid (uint32OfInt gid) = some gr) :
    getgrgidImpl cfg os gid = (some (grpObj gr), []) := by
  obtain ⟨hs, h1, h2, h3, h4, h5, h6, h7⟩ := hc
  rcases hm : gr.gr_mem with _ | mems
  · simp [getgrgidImpl, h, hm, getJavaMethodId, setJavaFieldString, setJavaFieldInt,
      JObject.setField, grpObj, grpBaseObj, h1, h2, h3, h4, h5, h6, h7]
  · rcases mems with _ | ⟨m, rest⟩ <;>
      simp [getgrgidImpl, h, hm, getJavaMethodId, setJavaFieldString, setJavaFieldInt,
        JObject.setField, grpObj, grpBaseObj, h1, h2, h3, h4, h5, h6, h7]

/-- Successful resource-limit read in a fully resolving environment: both
kernel values stored through the `int` conversion, no exception. -/
theorem getrlimitnofilesImpl_found (cfg : JniConfig) (rl : RlimState)
    (hc : rlimitCfgOk cfg) :
    getrlimitnofilesImpl cfg (some rl) = (some (rlObj rl), []) := by
  obtain ⟨hs, h1, h2, h3, h4, h5⟩ := hc
  simp [getrlimitnofilesImpl, getJavaMethodId, setJavaFieldInt,
    JObject.setField, rlObj, h1, h2, h3, h4, h5]

/-- Resource-limit write when both record fields resolve: one kernel call on
the two widened field values, its raw result returned, no exception. -/
theorem setrlimitnofilesImpl_eval (cfg : JniConfig) (priv : Bool)
    (os : RlimState) (jo : JObject)
    (h1 : cfg.getFieldId jo.className "_soft" "I" = true)
    (h2 : cfg.getFieldId jo.className "_hard" "I" = true) :
    setrlimitnofilesImpl cfg priv os jo =
      ((kernelSetrlimit priv os (uint64OfInt (jo.getIntField "_soft"))
          (uint64OfInt (jo.getIntField "_hard"))).1,
       (kernelSetrlimit priv os (uint64OfInt (jo.getIntField "_soft"))
          (uint64OfInt (jo.getIntField "_hard"))).2,
       []) := by
  simp [setrlimitnofilesImpl, getJavaFieldInt, h1, h2]

/-- Field `_soft` of the record built by the read. -/
theorem rlObj_soft (rl : RlimState) :
    (rlObj rl).getIntField "_soft" = toInt32 rl.rlim_cur := rfl

/-- Field `_hard` of the record built by the read. -/
theorem rlObj_hard (rl : RlimState) :
    (rlObj rl).getIntField "_hard" = toInt32 rl.rlim_max := rfl

/-! ### The claims -/

/-- C1: the claim says a failing field-binding step makes the lookup raise a
security error and return early with no result, so a partially populated
record is never returned.  The code violates this (and its own design notes
call the behaviour a latent defect): in an environment where the `Passwd`
class resolves but its `_pwShell` field does not, `getpwnam` on an existing
user raises the security exception naming `_pwShell` yet still returns a
non-null record that lacks the `_pwShell` binding while carrying the other
fields. -/
theorem c1_field_binding_failure_still_returns_record :
    (getpwnamImpl cfgNoShell osW "jetty").2
      = ["Java Object Field is not found: String _pwShell !!!"] ∧
    (getpwnamImpl cfgNoShell osW "jetty").1 ≠ none ∧
    ((getpwnamImpl cfgNoShell osW "jetty").1.getD noObj).getField "_pwShell" = none ∧
    ((getpwnamImpl cfgNoShell osW "jetty").1.getD noObj).getField "_pwName"
      = some (JValue.vString "jetty") := by
  refine ⟨rfl, by decide, rfl, rfl⟩

/-- C2: each of the four identity lookups, when the operating system's
database has no matching entry, raises a security exception whose message
embeds the queried key (the name, or the decimal rendering of the numeric id)
and returns no record. -/
theorem c2_lookup_notfound_raises_and_returns_null
    (cfg : JniConfig) (os : OS) (uname : String) (uid : Int)
    (gname : String) (gid : Int) (hs : secCfgOk cfg)
    (h1 : os.getpwnam uname = none) (h2 : os.getpwuid (uint32OfInt uid) = none)
    (h3 : os.getgrnam gname = none) (h4 : os.getgrgid (uint32OfInt gid) = none) :
    getpwnamImpl cfg os uname = (none, ["User " ++ uname ++ " is not found!!!"]) ∧
    getpwuidImpl cfg os uid
      = (none, ["User with uid " ++ toString uid ++ " is not found!!!"]) ∧
    getgrnamImpl cfg os gname = (none, ["Group " ++ gname ++ " is not found!!!"]) ∧
    getgrgidImpl cfg os gid
      = (none, ["Group with gid " ++ toString gid ++ " is not found!!!"]) :=
  ⟨getpwnamImpl_notfound cfg os uname hs h1,
   getpwuidImpl_notfound cfg os uid hs h2,
   getgrnamImpl_notfound cfg os gname hs h3,
   getgrgidImpl_notfound cfg os gid hs h4⟩

/-- C3: for both group lookups the member list is the scanned null-terminated
array; when its length is non-zero the record's `_grMem` field is bound to the
newly built string array, which equals the member list (so it has length
exactly `N` and preserves the order); a null or empty member array leaves
`_grMem` at its zero-initialised (unbound) value. -/
theorem c3_group_member_list
    (cfg : JniConfig) (os : OS) (gname : String) (gid : Int) (g1 g2 : GroupEntry)
    (hc : groupCfgOk cfg)
    (hf1 : os.getgrnam gname = some g1) (hf2 : os.getgrgid (uint32OfInt gid) = some g2) :
    getgrnamImpl cfg os gname = (some (grpObj g1), []) ∧
    getgrgidImpl cfg os gid = (some (grpObj g2), []) ∧
    (∀ mems : List String, g1.gr_mem = some mems → mems ≠ [] →
      ((getgrnamImpl cfg os gname).1.getD noObj).getField "_grMem"
          = some (JValue.vStringArray (builtMemberArray mems)) ∧
        builtMemberArray mems = mems) ∧
    (g1.gr_mem = none ∨ g1.gr_mem = some [] →
      ((getgrnamImpl cfg os gname).1.getD noObj).getField "_grMem" = none) ∧
    (∀ mems : List String, g2.gr_mem = some mems → mems ≠ [] →
      ((getgrgidImpl cfg os gid).1.getD noObj).getField "_grMem"
          = some (JValue.vStringArray (builtMemberArray mems)) ∧
        builtMemberArray mems = mems) ∧
    (g2.gr_mem = none ∨ g2.gr_mem = some [] →
      ((getgrgidImpl cfg os gid).1.getD noObj).getField "_grMem" = none) := by
  have e1 := getgrnamImpl_found cfg os gname g1 hc hf1
  have e2 := getgrgidImpl_found cfg os gid g2 hc hf2
  rw [e1, e2]
  refine ⟨rfl, rfl, ?_, ?_, ?_, ?_⟩
  · intro mems hm hne
    rcases mems with _ | ⟨m, rest⟩
    · exact absurd rfl hne
    · exact ⟨by simp [grpObj, hm, grpBaseObj, JObject.setField, JObject.getField,
          lookupField], builtMemberArray_eq _⟩
  · intro hg
    rcases hg with hg | hg <;>
      simp [grpObj, hg, grpBaseObj, JObject.getField, lookupField]
  · intro mems hm hne
    rcases mems with _ | ⟨m, rest⟩
    · exact absurd rfl hne
    · exact ⟨by simp [grpObj, hm, grpBaseObj, JObject.setField, JObject.getField,
          lookupField], builtMemberArray_eq _⟩
  · intro hg
    rcases hg with hg | hg <;>
      simp [grpObj, hg, grpBaseObj, JObject.getField, lookupField]

/-- C4: each privilege-change operation invokes exactly its system call on the
(unsigned cast of the) given argument, returns the raw integer result
unchanged, and raises no exception for any input and any syscall outcome; a
non-negative 32-bit argument crosses the cast unchanged. -/
theorem c4_privilege_ops_raw_passthrough
    (sysU sysG sysM : Nat → Int) (uid gid mask : Int) :
    setuidImpl sysU uid = (sysU (uint32OfInt uid), []) ∧
    setgidImpl sysG gid = (sysG (uint32OfInt gid), []) ∧
    setumaskImpl sysM mask = (sysM (uint32OfInt mask), []) ∧
    (0 ≤ uid → uid < 2 ^ 32 → uint32OfInt uid = uid.toNat) := by
  refine ⟨rfl, rfl, rfl, fun hl hu => uint32OfInt_eq_toNat uid hl hu⟩

/-- C5 falsified: a return-code operation can raise a security exception.
When the `int` field `_soft` of the caller-supplied record does not resolve,
`setrlimitnofiles` — which reports failure through its integer return code —
nevertheless raises a security exception naming the field. -/
theorem c5_counterexample_write_op_raises :
    (setrlimitnofilesImpl cfgNoSoft false ⟨64, 128⟩ joRlBad).2.2
      = ["Java Object Field is not found: int _soft !!!"] ∧
    (setrlimitnofilesImpl cfgNoSoft false ⟨64, 128⟩ joRlBad).2.2 ≠ [] := by
  refine ⟨rfl, by decide⟩

/-- C5 (amended): the two failure channels are separate except for reflective
field-binding failures on the caller-supplied resource-limit record: `setuid`,
`setgid` and `setumask` never raise for any input and syscall outcome;
`setrlimitnofiles` raises nothing provided its two `int` fields resolve; and
the four lookups and the resource-limit read convey failure by returning no
record together with a raised exception, not through an integer code. -/
theorem c5_failure_channels
    (sysU sysG sysM : Nat → Int) (u g m : Int)
    (cfg : JniConfig) (priv : Bool) (os : RlimState) (jo : JObject)
    (cfg2 : JniConfig) (os2 : OS) (uname : String) (uid : Int)
    (gname : String) (gid : Int)
    (h1 : cfg.getFieldId jo.className "_soft" "I" = true)
    (h2 : cfg.getFieldId jo.className "_hard" "I" = true)
    (hs : secCfgOk cfg2)
    (hn1 : os2.getpwnam uname = none) (hn2 : os2.getpwuid (uint32OfInt uid) = none)
    (hn3 : os2.getgrnam gname = none) (hn4 : os2.getgrgid (uint32OfInt gid) = none) :
    (setuidImpl sysU u).2 = [] ∧
    (setgidImpl sysG g).2 = [] ∧
    (setumaskImpl sysM m).2 = [] ∧
    (setrlimitnofilesImpl cfg priv os jo).2.2 = [] ∧
    (getpwnamImpl cfg2 os2 uname).1 = none ∧ (getpwnamImpl cfg2 os2 uname).2 ≠ [] ∧
    (getpwuidImpl cfg2 os2 uid).1 = none ∧ (getpwuidImpl cfg2 os2 uid).2 ≠ [] ∧
    (getgrnamImpl cfg2 os2 gname).1 = none ∧ (getgrnamImpl cfg2 os2 gname).2 ≠ [] ∧
    (getgrgidImpl cfg2 os2 gid).1 = none ∧ (getgrgidImpl cfg2 os2 gid).2 ≠ [] ∧
    (getrlimitnofilesImpl cfg2 none).1 = none ∧
    (getrlimitnofilesImpl cfg2 none).2 ≠ [] := by
  rw [setrlimitnofilesImpl_eval cfg priv os jo h1 h2,
    getpwnamImpl_notfound cfg2 os2 uname hs hn1,
    getpwuidImpl_notfound cfg2 os2 uid hs hn2,
    getgrnamImpl_notfound cfg2 os2 gname hs hn3,
    getgrgidImpl_notfound cfg2 os2 gid hs hn4,
    getrlimitnofilesImpl_fail cfg2 hs]
  simp [setuidImpl, setgidImpl, setumaskImpl]

/-- C6: when the record's two `int` fields resolve, the write operation makes
the single `setrlimit` call on both widened field values, returns its raw
integer result (with the resulting process state) and raises nothing; no
managed-side validation happens, so a soft value whose widening exceeds the
widened hard value makes the kernel call fail with `-1`, the process state
unchanged and still no exception. -/
theorem c6_setrlimit_write_contract
    (cfg : JniConfig) (priv : Bool) (os : RlimState) (jo : JObject)
    (h1 : cfg.getFieldId jo.className "_soft" "I" = true)
    (h2 : cfg.getFieldId jo.className "_hard" "I" = true) :
    setrlimitnofilesImpl cfg priv os jo =
      ((kernelSetrlimit priv os (uint64OfInt (jo.getIntField "_soft"))
          (uint64OfInt (jo.getIntField "_hard"))).1,
       (kernelSetrlimit priv os (uint64OfInt (jo.getIntField "_soft"))
          (uint64OfInt (jo.getIntField "_hard"))).2,
       []) ∧
    (uint64OfInt (jo.getIntField "_hard") < uint64OfInt (jo.getIntField "_soft") →
      (setrlimitnofilesImpl cfg priv os jo).1 = -1 ∧
      (setrlimitnofilesImpl cfg priv os jo).2.1 = os ∧
      (setrlimitnofilesImpl cfg priv os jo).2.2 = []) := by
  have e := setrlimitnofilesImpl_eval cfg priv os jo h1 h2
  refine ⟨e, fun hlt => ?_⟩
  rw [e]
  simp [kernelSetrlimit, hlt]

/-- C7 falsified at a concrete kernel state: with the soft limit `2 ^ 32`, the
read succeeds and raises nothing, but the returned record's `_soft` field is
`0`, not the queried value `2 ^ 32` — the record does not hold the queried
values. -/
theorem c7_counterexample_large_value_not_preserved :
    softOf (getrlimitnofilesImpl cfgAll (some ⟨2 ^ 32, 7⟩)) = 0 ∧
    (getrlimitnofilesImpl cfgAll (some ⟨2 ^ 32, 7⟩)).1 ≠ none ∧
    (getrlimitnofilesImpl cfgAll (some ⟨2 ^ 32, 7⟩)).2 = [] ∧
    ((2 ^ 32 : Nat) : Int) ≠ 0 := by
  refine ⟨rfl, by decide, rfl, by decide⟩

/-- C7 (amended): on `getrlimit` failure the read raises the fixed message and
returns no record; on success it returns a fresh record raising nothing, whose
`_soft` and `_hard` fields hold the queried values truncated to a signed
32-bit `int` — equal to the queried values whenever those are below `2 ^ 31`. -/
theorem c7_read_contract (cfg : JniConfig) (rl : RlimState) (hc : rlimitCfgOk cfg) :
    getrlimitnofilesImpl cfg none = (none, ["getrlimit failed"]) ∧
    (getrlimitnofilesImpl cfg (some rl)).2 = [] ∧
    (getrlimitnofilesImpl cfg (some rl)).1 ≠ none ∧
    softOf (getrlimitnofilesImpl cfg (some rl)) = toInt32 rl.rlim_cur ∧
    hardOf (getrlimitnofilesImpl cfg (some rl)) = toInt32 rl.rlim_max ∧
    (rl.rlim_cur < 2 ^ 31 →
      softOf (getrlimitnofilesImpl cfg (some rl)) = (rl.rlim_cur : Int)) ∧
    (rl.rlim_max < 2 ^ 31 →
      hardOf (getrlimitnofilesImpl cfg (some rl)) = (rl.rlim_max : Int)) := by
  rw [getrlimitnofilesImpl_fail cfg hc.1, getrlimitnofilesImpl_found cfg rl hc]
  refine ⟨rfl, rfl, by simp, by simp [softOf, rlObj_soft],
    by simp [hardOf, rlObj_hard], fun h => ?_, fun h => ?_⟩ <;>
    simp [softOf, hardOf, rlObj_soft, rlObj_hard, toInt32_eq_self _ h]

/-- C8: reading the open-file limits, writing the very record that was read
back through `setrlimitnofiles`, and reading again yields the same `_soft` and
`_hard` field values as the first read — whether the kernel accepts the
(sign-extended) written values or rejects them and leaves the state
unchanged. -/
theorem c8_read_write_read_idempotent (cfg : JniConfig) (priv : Bool)
    (rl : RlimState) (hc : rlimitCfgOk cfg) :
    (getrlimitnofilesImpl cfg (some rl)).1 ≠ none ∧
    softOf (getrlimitnofilesImpl cfg
        (some (setrlimitnofilesImpl cfg priv rl
          ((getrlimitnofilesImpl cfg (some rl)).1.getD noObj)).2.1))
      = softOf (getrlimitnofilesImpl cfg (some rl)) ∧
    hardOf (getrlimitnofilesImpl cfg
        (some (setrlimitnofilesImpl cfg priv rl
          ((getrlimitnofilesImpl cfg (some rl)).1.getD noObj)).2.1))
      = hardOf (getrlimitnofilesImpl cfg (some rl)) := by
  have hsoft : cfg.getFieldId (rlObj rl).className "_soft" "I" = true :=
    hc.2.2.2.2.1
  have hhard : cfg.getFieldId (rlObj rl).className "_hard" "I" = true :=
    hc.2.2.2.2.2
  rw [getrlimitnofilesImpl_found cfg rl hc]
  simp only [Option.getD_some]
  rw [setrlimitnofilesImpl_eval cfg priv rl (rlObj rl) hsoft hhard]
  simp only []
  rw [getrlimitnofilesImpl_found cfg _ hc]
  refine ⟨by simp, ?_, ?_⟩ <;>
  · simp only [softOf, hardOf, Option.getD_some, rlObj_soft, rlObj_hard]
    unfold kernelSetrlimit
    split_ifs <;> simp [rlObj_soft, rlObj_hard, toInt32_roundtrip]

/-- C9: both resource-limit operations squeeze the limit values through a
32-bit signed `int`: the read stores `toInt32` of each kernel value into the
record, the write widens each record field back through sign extension
(`uint64OfInt`) before the kernel call, `toInt32` is exactly reduction modulo
`2 ^ 32` followed by signed reinterpretation, and every value of at least
`2 ^ 31` (hence also the unlimited sentinel) is altered by it. -/
theorem c9_int_bit_truncation
    (cfg : JniConfig) (rl : RlimState) (priv : Bool) (os : RlimState)
    (jo : JObject) (hc : rlimitCfgOk cfg)
    (h1 : cfg.getFieldId jo.className "_soft" "I" = true)
    (h2 : cfg.getFieldId jo.className "_hard" "I" = true) :
    softOf (getrlimitnofilesImpl cfg (some rl)) = toInt32 rl.rlim_cur ∧
    hardOf (getrlimitnofilesImpl cfg (some rl)) = toInt32 rl.rlim_max ∧
    (setrlimitnofilesImpl cfg priv os jo).2.1 =
      (kernelSetrlimit priv os (uint64OfInt (jo.getIntField "_soft"))
        (uint64OfInt (jo.getIntField "_hard"))).2 ∧
    (∀ v : Nat, toInt32 v = ((v % 2 ^ 32 : Nat) : Int) ∨
      toInt32 v = ((v % 2 ^ 32 : Nat) : Int) - 2 ^ 32) ∧
    (∀ v : Nat, 2 ^ 31 ≤ v → toInt32 v ≠ (v : Int)) := by
  rw [getrlimitnofilesImpl_found cfg rl hc,
    setrlimitnofilesImpl_eval cfg priv os jo h1 h2]
  exact ⟨by simp [softOf, rlObj_soft], by simp [hardOf, rlObj_hard], rfl,
    toInt32_cases, toInt32_ne_of_ge⟩

/-- C10: lookup-by-name and lookup-by-id perform the same record
construction: on a user entry reachable both by its name and by its id the two
user lookups return identical results, and on a group entry reachable both
ways the two group lookups return identical records (their exception logs may
differ only in message spelling on binding-failure paths, so record equality
is stated for the group pair). -/
theorem c10_name_and_id_lookups_agree
    (cfg : JniConfig) (os : OS) (uname : String) (uid : Int)
    (gname : String) (gid : Int) (pe : PasswdEntry) (ge : GroupEntry)
    (h1 : os.getpwnam uname = some pe) (h2 : os.getpwuid (uint32OfInt uid) = some pe)
    (h3 : os.getgrnam gname = some ge) (h4 : os.getgrgid (uint32OfInt gid) = some ge) :
    getpwnamImpl cfg os uname = getpwuidImpl cfg os uid ∧
    (getgrnamImpl cfg os gname).1 = (getgrgidImpl cfg os gid).1 := by
  constructor
  · simp only [getpwnamImpl, getpwuidImpl, h1, h2]
  · simp only [getgrnamImpl, getgrgidImpl, h3, h4]
    rcases hb1 : cfg.findClass "org/mortbay/setuid/Group" <;> simp only [hb1, Bool.false_eq_true, if_false, if_true]
    rcases hb2 : cfg.newObject "org/mortbay/setuid/Group"
    all_goals simp only [hb2, Bool.false_eq_true, if_false, if_true]
    rcases hm : ge.gr_mem with _ | ⟨_ | ⟨m, rest⟩⟩
    · simp [hm]
    · simp [hm]
    · rcases hb3 : cfg.getFieldId "org/mortbay/setuid/Group" "_grMem" "[Ljava/lang/String;" <;>
        simp [hm, hb3]

/-! ### Concrete instantiations of the claims with hypotheses -/

/-- C2 instantiated: the fully resolving environment, a database without the
queried keys, and the four resulting exception messages. -/
theorem c2_witness :
    secCfgOk cfgAll ∧ osW.getpwnam "ghost" = none ∧
    osW.getpwuid (uint32OfInt 4242) = none ∧ osW.getgrnam "ghosts" = none ∧
    osW.getgrgid (uint32OfInt 4343) = none ∧
    (getpwnamImpl cfgAll osW "ghost"
        = (none, ["User " ++ "ghost" ++ " is not found!!!"]) ∧
      getpwuidImpl cfgAll osW 4242
        = (none, ["User with uid " ++ toString (4242 : Int) ++ " is not found!!!"]) ∧
      getgrnamImpl cfgAll osW "ghosts"
        = (none, ["Group " ++ "ghosts" ++ " is not found!!!"]) ∧
      getgrgidImpl cfgAll osW 4343
        = (none, ["Group with gid " ++ toString (4343 : Int) ++ " is not found!!!"])) :=
  ⟨rfl, rfl, rfl, rfl, rfl,
   c2_lookup_notfound_raises_and_returns_null cfgAll osW "ghost" 4242 "ghosts" 4343
     rfl rfl rfl rfl rfl⟩

/-- C3 instantiated at the two-member group `staff`, reachable by name and by
gid 50. -/
theorem c3_witness :
    groupCfgOk cfgAll ∧ osW.getgrnam "staff" = some grStaff ∧
    osW.getgrgid (uint32OfInt 50) = some grStaff ∧
    (getgrnamImpl cfgAll osW "staff" = (some (grpObj grStaff), []) ∧
      getgrgidImpl cfgAll osW 50 = (some (grpObj grStaff), []) ∧
      (∀ mems : List String, grStaff.gr_mem = some mems → mems ≠ [] →
        ((getgrnamImpl cfgAll osW "staff").1.getD noObj).getField "_grMem"
            = some (JValue.vStringArray (builtMemberArray mems)) ∧
          builtMemberArray mems = mems) ∧
      (grStaff.gr_mem = none ∨ grStaff.gr_mem = some [] →
        ((getgrnamImpl cfgAll osW "staff").1.getD noObj).getField "_grMem" = none) ∧
      (∀ mems : List String, grStaff.gr_mem = some mems → mems ≠ [] →
        ((getgrgidImpl cfgAll osW 50).1.getD noObj).getField "_grMem"
            = some (JValue.vStringArray (builtMemberArray mems)) ∧
          builtMemberArray mems = mems) ∧
      (grStaff.gr_mem = none ∨ grStaff.gr_mem = some [] →
        ((getgrgidImpl cfgAll osW 50).1.getD noObj).getField "_grMem" = none)) :=
  ⟨⟨rfl, rfl, rfl, rfl, rfl, rfl, rfl, rfl⟩, rfl, rfl,
   c3_group_member_list cfgAll osW "staff" 50 grStaff grStaff
     ⟨rfl, rfl, rfl, rfl, rfl, rfl, rfl, rfl⟩ rfl rfl⟩

/-- C4 instantiated at concrete syscall oracles and arguments, with the cast
fact discharged at 1000. -/
theorem c4_witness :
    setuidImpl (fun _ => (-1 : Int)) 1000 = (-1, []) ∧
    setgidImpl (fun _ => (-1 : Int)) 1000 = (-1, []) ∧
    setumaskImpl (fun _ => (18 : Int)) 18 = (18, []) ∧
    uint32OfInt 1000 = (1000 : Int).toNat :=
  ⟨(c4_privilege_ops_raw_passthrough (fun _ => -1) (fun _ => -1) (fun _ => 18)
      1000 1000 18).1,
   (c4_privilege_ops_raw_passthrough (fun _ => -1) (fun _ => -1) (fun _ => 18)
      1000 1000 18).2.1,
   (c4_privilege_ops_raw_passthrough (fun _ => -1) (fun _ => -1) (fun _ => 18)
      1000 1000 18).2.2.1,
   (c4_privilege_ops_raw_passthrough (fun _ => -1) (fun _ => -1) (fun _ => 18)
      1000 1000 18).2.2.2 (by decide) (by decide)⟩

/-- C5 (amended) instantiated: a resolving environment and record for the
write, and a database missing all four queried keys for the lookups. -/
theorem c5_witness :
    cfgAll.getFieldId joRlBad.className "_soft" "I" = true ∧
    cfgAll.getFieldId joRlBad.className "_hard" "I" = true ∧
    secCfgOk cfgAll ∧ osW.getpwnam "ghost" = none ∧
    osW.getpwuid (uint32OfInt 4242) = none ∧ osW.getgrnam "ghosts" = none ∧
    osW.getgrgid (uint32OfInt 4343) = none ∧
    ((setuidImpl (fun _ => (-1 : Int)) 0).2 = [] ∧
      (setgidImpl (fun _ => (-1 : Int)) 0).2 = [] ∧
      (setumaskImpl (fun _ => (-1 : Int)) 0).2 = [] ∧
      (setrlimitnofilesImpl cfgAll false ⟨64, 128⟩ joRlBad).2.2 = [] ∧
      (getpwnamImpl cfgAll osW "ghost").1 = none ∧
      (getpwnamImpl cfgAll osW "ghost").2 ≠ [] ∧
      (getpwuidImpl cfgAll osW 4242).1 = none ∧
      (getpwuidImpl cfgAll osW 4242).2 ≠ [] ∧
      (getgrnamImpl cfgAll osW "ghosts").1 = none ∧
      (getgrnamImpl cfgAll osW "ghosts").2 ≠ [] ∧
      (getgrgidImpl cfgAll osW 4343).1 = none ∧
      (getgrgidImpl cfgAll osW 4343).2 ≠ [] ∧
      (getrlimitnofilesImpl cfgAll none).1 = none ∧
      (getrlimitnofilesImpl cfgAll none).2 ≠ []) :=
  ⟨rfl, rfl, rfl, rfl, rfl, rfl, rfl,
   c5_failure_channels (fun _ => -1) (fun _ => -1) (fun _ => -1) 0 0 0
     cfgAll false ⟨64, 128⟩ joRlBad cfgAll osW "ghost" 4242 "ghosts" 4343
     rfl rfl rfl rfl rfl rfl rfl⟩

/-- C6 instantiated at a record whose soft field (100) exceeds its hard field
(50): the kernel call fails with `-1`, the limits stay `(64, 128)`, and no
exception is raised. -/
theorem c6_witness :
    cfgAll.getFieldId joRlBad.className "_soft" "I" = true ∧
    cfgAll.getFieldId joRlBad.className "_hard" "I" = true ∧
    uint64OfInt (joRlBad.getIntField "_hard")
      < uint64OfInt (joRlBad.getIntField "_soft") ∧
    (setrlimitnofilesImpl cfgAll false ⟨64, 128⟩ joRlBad).1 = -1 ∧
    (setrlimitnofilesImpl cfgAll false ⟨64, 128⟩ joRlBad).2.1 = ⟨64, 128⟩ ∧
    (setrlimitnofilesImpl cfgAll false ⟨64, 128⟩ joRlBad).2.2 = [] :=
  ⟨rfl, rfl, by decide,
   (c6_setrlimit_write_contract cfgAll false ⟨64, 128⟩ joRlBad rfl rfl).2 (by decide)⟩

/-- C7 (amended) instantiated at limits `(1024, 4096)`, both below `2 ^ 31`,
with the below-threshold implications discharged. -/
theorem c7_witness :
    rlimitCfgOk cfgAll ∧
    (getrlimitnofilesImpl cfgAll none = (none, ["getrlimit failed"]) ∧
      (getrlimitnofilesImpl cfgAll (some ⟨1024, 4096⟩)).2 = [] ∧
      (getrlimitnofilesImpl cfgAll (some ⟨1024, 4096⟩)).1 ≠ none ∧
      softOf (getrlimitnofilesImpl cfgAll (some ⟨1024, 4096⟩)) = toInt32 1024 ∧
      hardOf (getrlimitnofilesImpl cfgAll (some ⟨1024, 4096⟩)) = toInt32 4096) ∧
    softOf (getrlimitnofilesImpl cfgAll (some ⟨1024, 4096⟩)) = 1024 ∧
    hardOf (getrlimitnofilesImpl cfgAll (some ⟨1024, 4096⟩)) = 4096 :=
  ⟨⟨rfl, rfl, rfl, rfl, rfl, rfl⟩,
   ⟨(c7_read_contract cfgAll ⟨1024, 4096⟩ ⟨rfl, rfl, rfl, rfl, rfl, rfl⟩).1,
    (c7_read_contract cfgAll ⟨1024, 4096⟩ ⟨rfl, rfl, rfl, rfl, rfl, rfl⟩).2.1,
    (c7_read_contract cfgAll ⟨1024, 4096⟩ ⟨rfl, rfl, rfl, rfl, rfl, rfl⟩).2.2.1,
    (c7_read_contract cfgAll ⟨1024, 4096⟩ ⟨rfl, rfl, rfl, rfl, rfl, rfl⟩).2.2.2.1,
    (c7_read_contract cfgAll ⟨1024, 4096⟩ ⟨rfl, rfl, rfl, rfl, rfl, rfl⟩).2.2.2.2.1⟩,
   (c7_read_contract cfgAll ⟨1024, 4096⟩ ⟨rfl, rfl, rfl, rfl, rfl, rfl⟩).2.2.2.2.2.1
     (by decide),
   (c7_read_contract cfgAll ⟨1024, 4096⟩ ⟨rfl, rfl, rfl, rfl, rfl, rfl⟩).2.2.2.2.2.2
     (by decide)⟩

/-- C8 instantiated at limits that do overflow the 32-bit field
(`2 ^ 31` soft, `2 ^ 63` hard), an unprivileged process, and the fully
resolving environment. -/
theorem c8_witness :
    rlimitCfgOk cfgAll ∧
    ((getrlimitnofilesImpl cfgAll (some ⟨2 ^ 31, 2 ^ 63⟩)).1 ≠ none ∧
      softOf (getrlimitnofilesImpl cfgAll
          (some (setrlimitnofilesImpl cfgAll false ⟨2 ^ 31, 2 ^ 63⟩
            ((getrlimitnofilesImpl cfgAll (some ⟨2 ^ 31, 2 ^ 63⟩)).1.getD noObj)).2.1))
        = softOf (getrlimitnofilesImpl cfgAll (some ⟨2 ^ 31, 2 ^ 63⟩)) ∧
      hardOf (getrlimitnofilesImpl cfgAll
          (some (setrlimitnofilesImpl cfgAll false ⟨2 ^ 31, 2 ^ 63⟩
            ((getrlimitnofilesImpl cfgAll (some ⟨2 ^ 31, 2 ^ 63⟩)).1.getD noObj)).2.1))
        = hardOf (getrlimitnofilesImpl cfgAll (some ⟨2 ^ 31, 2 ^ 63⟩))) :=
  ⟨⟨rfl, rfl, rfl, rfl, rfl, rfl⟩,
   c8_read_write_read_idempotent cfgAll false ⟨2 ^ 31, 2 ^ 63⟩
     ⟨rfl, rfl, rfl, rfl, rfl, rfl⟩⟩

/-- C9 instantiated at a soft limit just above `2 ^ 32` and the unlimited-like
hard value `2 ^ 63`. -/
theorem c9_witness :
    rlimitCfgOk cfgAll ∧
    cfgAll.getFieldId joRlBad.className "_soft" "I" = true ∧
    cfgAll.getFieldId joRlBad.className "_hard" "I" = true ∧
    (softOf (getrlimitnofilesImpl cfgAll (some ⟨2 ^ 32 + 5, 2 ^ 63⟩))
        = toInt32 (2 ^ 32 + 5) ∧
      hardOf (getrlimitnofilesImpl cfgAll (some ⟨2 ^ 32 + 5, 2 ^ 63⟩))
        = toInt32 (2 ^ 63) ∧
      (setrlimitnofilesImpl cfgAll false ⟨64, 128⟩ joRlBad).2.1 =
        (kernelSetrlimit false ⟨64, 128⟩
          (uint64OfInt (joRlBad.getIntField "_soft"))
          (uint64OfInt (joRlBad.getIntField "_hard"))).2 ∧
      (∀ v : Nat, toInt32 v = ((v % 2 ^ 32 : Nat) : Int) ∨
        toInt32 v = ((v % 2 ^ 32 : Nat) : Int) - 2 ^ 32) ∧
      (∀ v : Nat, 2 ^ 31 ≤ v → toInt32 v ≠ (v : Int))) ∧
    softOf (getrlimitnofilesImpl cfgAll (some ⟨2 ^ 32 + 5, 2 ^ 63⟩)) = 5 :=
  ⟨⟨rfl, rfl, rfl, rfl, rfl, rfl⟩, rfl, rfl,
   c9_int_bit_truncation cfgAll ⟨2 ^ 32 + 5, 2 ^ 63⟩ false ⟨64, 128⟩ joRlBad
     ⟨rfl, rfl, rfl, rfl, rfl, rfl⟩ rfl rfl,
   by decide⟩

/-- C10 instantiated at the user `jetty` (name and uid 1000) and the group
`staff` (name and gid 50). -/
theorem c10_witness :
    osW.getpwnam "jetty" = some pwJetty ∧
    osW.getpwuid (uint32OfInt 1000) = some pwJetty ∧
    osW.getgrnam "staff" = some grStaff ∧
    osW.getgrgid (uint32OfInt 50) = some grStaff ∧
    (getpwnamImpl cfgAll osW "jetty" = getpwuidImpl cfgAll osW 1000 ∧
      (getgrnamImpl cfgAll osW "staff").1 = (getgrgidImpl cfgAll osW 50).1) :=
  ⟨rfl, rfl, rfl, rfl,
   c10_name_and_id_lookups_agree cfgAll osW "jetty" 1000 "staff" 50 pwJetty grStaff
     rfl rfl rfl rfl⟩

end SetUIDNative
